import Mathlib

/-!
Verification development for the tabc-scrape enrichment / validation core.

The definitions below are a shallow embedding of
`src/tabc_scrape/storage/validation_framework.py` and
`src/tabc_scrape/storage/enrichment_pipeline.py`:

* Python values flowing through the validator are modelled by `Value`
  (`None`, `str`, numbers as exact rationals, `bool`); a record
  (`Dict[str, Any]`) is a partial map `String → Option Value` where `none`
  models an absent key.  Binary floating point (and pandas `NaN`) is not
  modelled: dataset nulls are represented by `Value.vNone`.
* Fallible Python calls are modelled with `Except String`; a raised
  exception is an `Except.error` carrying the exception text.
* The regular-expression engine (`re`) is an external library and is passed
  in as an opaque matching function, exactly as the tasks of the
  orchestrator are opaque collaborators.
* Wall-clock quantities (`time.time()`, `func.now()`, `datetime.now()`)
  are outside the model; `processing_time` is fixed to `0` and the
  timestamp columns of jobs are omitted.
-/

namespace TabcScrape

/-- Whether the second character list starts with the first. -/
def charsStartWith : List Char → List Char → Bool
  | [], _ => true
  | _ :: _, [] => false
  | a :: as, b :: bs => a = b && charsStartWith as bs

/-- Whether the first character list occurs contiguously in the second. -/
def charsContain : List Char → List Char → Bool
  | needle, [] => needle.isEmpty
  | needle, c :: rest => charsStartWith needle (c :: rest) || charsContain needle rest

/-- Case-sensitive substring test, modelling the Python `needle in hay`
operator on strings (the empty needle is contained in everything). -/
def strContains (hay needle : String) : Bool :=
  charsContain needle.data hay.data

/-- Lower-casing of a string (Python lower, over the model alphabet). -/
def lowerStr (s : String) : String := String.mk (s.data.map Char.toLower)

/-- Upper-casing of a string (Python upper, over the model alphabet). -/
def upperStr (s : String) : String := String.mk (s.data.map Char.toUpper)

/-- Whitespace test for trimming. -/
def isSpaceChar (c : Char) : Bool :=
  c = ' ' || c = '\t' || c = '\n' || c = '\r'

/-- Strip surrounding whitespace (Python strip, as done by float parsing). -/
def trimStr (s : String) : String :=
  String.mk (((s.data.dropWhile isSpaceChar).reverse.dropWhile isSpaceChar).reverse)

/-- A single quote character, used when rendering Python lists of strings. -/
def squote : String := String.singleton (Char.ofNat 39)

/-- Decimal digit parser helper: consumes a list of digit characters,
accumulating their value; fails on a non-digit. -/
def parseNatAux : List Char → ℕ → Option ℕ
  | [], acc => some acc
  | c :: cs, acc =>
    if c.isDigit then parseNatAux cs (acc * 10 + (c.toNat - 48)) else none

/-- Parse an unsigned decimal literal (digits with an optional fractional
part), the fragment of Python `float(...)` string conversion exercised by
the validation rules. -/
def parseUnsigned (cs : List Char) : Option ℚ :=
  let ip := cs.takeWhile Char.isDigit
  let rest := cs.dropWhile Char.isDigit
  match rest with
  | [] =>
    if ip.isEmpty then none
    else (parseNatAux ip 0).map (fun n => (n : ℚ))
  | '.' :: fp =>
    if fp.all Char.isDigit && (!ip.isEmpty || !fp.isEmpty) then
      match parseNatAux ip 0, parseNatAux fp 0 with
      | some i, some f => some ((i : ℚ) + (f : ℚ) / ((10 : ℚ) ^ fp.length))
      | _, _ => none
    else none
  | _ => none

/-- Parse a signed decimal literal. -/
def parseSigned (cs : List Char) : Option ℚ :=
  match cs with
  | '-' :: rest => (parseUnsigned rest).map Neg.neg
  | '+' :: rest => parseUnsigned rest
  | _ => parseUnsigned cs

/-- Values a Python record field can hold in this model: `None`, `str`,
a number (exact rational; the source only does ordered comparisons and
arithmetic on them), or `bool`. -/
inductive Value where
  | vNone : Value
  | vStr (s : String) : Value
  | vNum (q : ℚ) : Value
  | vBool (b : Bool) : Value
deriving DecidableEq

/-- A record (`Dict[str, Any]`): `none` models a key that is absent, so
`record f` is Python `record.get(f)`. -/
abbrev Record := String → Option Value

/-- Python truthiness of `record.get(f)` as used in `if ref_value:` tests. -/
def pyTruthy : Option Value → Bool
  | none => false
  | some Value.vNone => false
  | some (Value.vStr s) => !(s = "")
  | some (Value.vNum q) => !(q = 0)
  | some (Value.vBool b) => b

/-- Python `str(...)` of a model value. -/
def pyNumStr (q : ℚ) : String :=
  if q.den = 1 then toString q.num
  else
    match (List.range 13).find? (fun k => (q * (10 : ℚ) ^ k).den = 1) with
    | some k =>
      let n : ℤ := (q * (10 : ℚ) ^ k).num
      let sign := if n < 0 then "-" else ""
      let m := n.natAbs
      let ipart := toString (m / 10 ^ k)
      let fpartRaw := toString (m % 10 ^ k)
      let fpart := String.mk (List.replicate (k - fpartRaw.length) '0') ++ fpartRaw
      sign ++ ipart ++ "." ++ fpart
    | none => toString q.num ++ "/" ++ toString q.den

/-- Python `str(value)` for a model value. -/
def pyStrOfValue : Value → String
  | Value.vNone => "None"
  | Value.vStr s => s
  | Value.vNum q => pyNumStr q
  | Value.vBool b => if b then "True" else "False"

/-- Python `float(value)` (also `pd.to_numeric` on one cell): numbers pass
through, booleans coerce to 0/1, strings are parsed as decimal literals
(after stripping surrounding whitespace), everything else fails. -/
def pyFloat : Value → Option ℚ
  | Value.vNum q => some q
  | Value.vBool b => some (if b then 1 else 0)
  | Value.vStr s => parseSigned (trimStr s).data
  | Value.vNone => none

/-- The missing-or-empty test (None, or the empty string) of
`ValidationEngine._apply_rule`. -/
def isMissing : Option Value → Bool
  | none => true
  | some Value.vNone => true
  | some (Value.vStr s) => s = ""
  | some _ => false

/-- Python `f"{x:.2f}"` fixed-point rendering (two decimals), over exact
rationals with round-half-up. -/
def formatFixed2 (q : ℚ) : String :=
  let n : ℤ := round (q * 100)
  let sign := if n < 0 then "-" else ""
  let m := n.natAbs
  let fp := m % 100
  sign ++ toString (m / 100) ++ "." ++ (if fp < 10 then "0" else "") ++ toString fp

/-- Python `round(x, 3)` over exact rationals (round-half-up stands in for
float bankers rounding, which only differs on exact ties). -/
def round3 (q : ℚ) : ℚ := ((round (q * 1000) : ℤ) : ℚ) / 1000

/-! ## Validation rules (`validation_framework.ValidationRule`) -/

/-- The parameter dictionary of a rule, modelled by the keys the engine
reads; `none` models an absent key. -/
structure RuleParams where
  required : Option Bool := none
  pattern : Option String := none
  valid_values : Option (List String) := none
  min : Option ℚ := none
  max : Option ℚ := none
  reference_field : Option String := none
deriving DecidableEq

/-- A validation rule (`ValidationRule` dataclass). -/
structure ValidationRule where
  name : String
  description : String
  field : String
  rule_type : String
  parameters : RuleParams
  severity : String := "error"
  enabled : Bool := true
deriving DecidableEq

/-- The dynamically typed `expected_value` payload of a result: the raw
reference value (consistency), a bound string (range), or the list of
valid values (format). -/
inductive Expected where
  | val (v : Value)
  | bound (s : String)
  | valueSet (vs : List String)
deriving DecidableEq

/-- A validation result (`ValidationResult` dataclass). -/
structure ValidationResult where
  rule_name : String
  field : String
  is_valid : Bool
  severity : String
  message : String
  actual_value : Option Value := none
  expected_value : Option Expected := none
  record_id : Option String := none
deriving DecidableEq

/-- Render a Python list of strings, as `str(list)` does in messages. -/
def pyListStr (vs : List String) : String :=
  "[" ++ String.intercalate (", ") (vs.map (fun s => squote ++ s ++ squote)) ++ "]"

/-- Embedding of `ValidationEngine._validate_format`, second half: the `valid_values`
membership check (the precompiled `_VALID_STATES_SET` of the source equals this
uppercase image for the one rule that uses it). -/
def validate_format_values (rule : ValidationRule) (value : Value)
    (record_id : Option String) : Option ValidationResult :=
  match rule.parameters.valid_values with
  | some vs =>
    if ¬ (vs.map upperStr).contains (upperStr (pyStrOfValue value)) then
      some { rule_name := rule.name, field := rule.field, is_valid := false,
             severity := rule.severity,
             message := "Value not in valid set: " ++ pyListStr vs,
             actual_value := some value,
             expected_value := some (Expected.valueSet vs),
             record_id := record_id }
    else none
  | none => none

/-- Embedding of `ValidationEngine._validate_format`: regex check (against the injected
matcher `re_match`), then valid-values check. -/
def validate_format (re_match : String → String → Bool) (rule : ValidationRule)
    (value : Value) (record_id : Option String) : Option ValidationResult :=
  match rule.parameters.pattern with
  | some pattern =>
    if ¬ re_match pattern (pyStrOfValue value) then
      some { rule_name := rule.name, field := rule.field, is_valid := false,
             severity := rule.severity,
             message := "Format validation failed for pattern: " ++ pattern,
             actual_value := some value,
             record_id := record_id }
    else validate_format_values rule value record_id
  | none => validate_format_values rule value record_id

/-- The result `_validate_range` returns for an unparsable value. -/
def rangeNotNumericResult (rule : ValidationRule) (value : Value)
    (record_id : Option String) : ValidationResult :=
  { rule_name := rule.name, field := rule.field, is_valid := false,
    severity := rule.severity, message := "Value is not numeric",
    actual_value := some value, record_id := record_id }

/-- The result `_validate_range` returns for a value below the minimum. -/
def rangeBelowResult (rule : ValidationRule) (value : Value)
    (record_id : Option String) (mn : ℚ) : ValidationResult :=
  { rule_name := rule.name, field := rule.field, is_valid := false,
    severity := rule.severity,
    message := "Value below minimum: " ++ pyNumStr mn,
    actual_value := some value,
    expected_value := some (Expected.bound (">=" ++ pyNumStr mn)),
    record_id := record_id }

/-- The result `_validate_range` returns for a value above the maximum. -/
def rangeAboveResult (rule : ValidationRule) (value : Value)
    (record_id : Option String) (mx : ℚ) : ValidationResult :=
  { rule_name := rule.name, field := rule.field, is_valid := false,
    severity := rule.severity,
    message := "Value above maximum: " ++ pyNumStr mx,
    actual_value := some value,
    expected_value := some (Expected.bound ("<=" ++ pyNumStr mx)),
    record_id := record_id }

/-- Embedding of `ValidationEngine._validate_range`, maximum half (reached when no
minimum is configured or the value is not below it). -/
def validate_range_max (rule : ValidationRule) (value : Value)
    (record_id : Option String) (x : ℚ) : Option ValidationResult :=
  match rule.parameters.max with
  | some mx => if mx < x then some (rangeAboveResult rule value record_id mx) else none
  | none => none

/-- Embedding of `ValidationEngine._validate_range`: parse the value as a number
(failure yields the synthetic "not numeric" violation, mirroring the
`except (ValueError, TypeError)` handler), then compare with the
configured bounds. -/
def validate_range (rule : ValidationRule) (value : Value)
    (record_id : Option String) : Option ValidationResult :=
  match pyFloat value with
  | none => some (rangeNotNumericResult rule value record_id)
  | some x =>
    match rule.parameters.min with
    | some mn =>
      if x < mn then some (rangeBelowResult rule value record_id mn)
      else validate_range_max rule value record_id x
    | none => validate_range_max rule value record_id x

/-- Embedding of `ValidationEngine._validate_completeness` (only reached on present
values, hence never fires there). -/
def validate_completeness (rule : ValidationRule) (value : Value)
    (record_id : Option String) : Option ValidationResult :=
  if rule.parameters.required.getD false && isMissing (some value) then
    some { rule_name := rule.name, field := rule.field, is_valid := false,
           severity := rule.severity,
           message := "Required field is missing or empty",
           actual_value := some value, record_id := record_id }
  else none

/-- Python `needle in target` where target is the field value with an
empty-string default;
a non-string target raises `TypeError` (modelled as `Except.error`). -/
def pyInValue (needle : String) (target : Option Value) : Except String Bool :=
  match target with
  | none => Except.ok (strContains ("") needle)
  | some (Value.vStr s) => Except.ok (strContains s needle)
  | some Value.vNone => Except.error ("argument of type " ++ squote ++ "NoneType" ++ squote ++ " is not iterable")
  | some (Value.vNum _) => Except.error ("argument of type " ++ squote ++ "float" ++ squote ++ " is not iterable")
  | some (Value.vBool _) => Except.error ("argument of type " ++ squote ++ "bool" ++ squote ++ " is not iterable")

/-- Python str of the field value, with an empty-string default. -/
def pyStrGetD (record : Record) (f : String) : String :=
  match record f with
  | none => ""
  | some v => pyStrOfValue v

/-- Embedding of `ValidationEngine._validate_consistency`, transcribed exactly: the
guard is: if ref_value is truthy and ref_field occurs in the target value
(with empty-string default) — note
that it tests the reference field NAME for (case-sensitive) occurrence in
the target value before the case-insensitive value-containment check in
the body (which is what the comment in the source describes). -/
def validate_consistency (rule : ValidationRule) (record : Record)
    (record_id : Option String) : Except String (Option ValidationResult) :=
  match rule.parameters.reference_field with
  | none => Except.ok none
  | some ref_field =>
    let ref_value := record ref_field
    if pyTruthy ref_value then
      match pyInValue ref_field (record rule.field) with
      | Except.error e => Except.error e
      | Except.ok guard =>
        if guard then
          if ¬ strContains (lowerStr (pyStrGetD record rule.field))
              (lowerStr (pyStrOfValue (ref_value.getD Value.vNone))) then
            Except.ok (some
              { rule_name := rule.name, field := rule.field, is_valid := false,
                severity := rule.severity,
                message := "Field should contain reference value from " ++ ref_field,
                actual_value := record rule.field,
                expected_value := (ref_value.map Expected.val),
                record_id := record_id })
          else Except.ok none
        else Except.ok none
    else Except.ok none

/-- The completeness violation `_apply_rule` emits for a missing required
field. -/
def completenessMissingResult (rule : ValidationRule) (record : Record)
    (record_id : Option String) : ValidationResult :=
  { rule_name := rule.name, field := rule.field, is_valid := false,
    severity := rule.severity, message := rule.description,
    actual_value := record rule.field, record_id := record_id }

/-- Embedding of `ValidationEngine._apply_rule`: skip missing fields (except required
completeness rules), otherwise dispatch on the rule type.  An exception
raised inside rule evaluation surfaces as `Except.error`. -/
def apply_rule (re_match : String → String → Bool) (rule : ValidationRule)
    (record : Record) (record_id : Option String) :
    Except String (Option ValidationResult) :=
  let field_value := record rule.field
  if isMissing field_value then
    if rule.rule_type = "completeness" ∧ rule.parameters.required.getD false = true then
      Except.ok (some (completenessMissingResult rule record record_id))
    else
      Except.ok none
  else
    match field_value with
    | none => Except.ok none
    | some v =>
      if rule.rule_type = "format" then
        Except.ok (validate_format re_match rule v record_id)
      else if rule.rule_type = "range" then
        Except.ok (validate_range rule v record_id)
      else if rule.rule_type = "completeness" then
        Except.ok (validate_completeness rule v record_id)
      else if rule.rule_type = "consistency" then
        validate_consistency rule record record_id
      else if rule.rule_type = "custom" then
        Except.ok none
      else
        Except.ok none

/-- Embedding of `ValidationEngine.validate_record`: apply every enabled rule; a rule
application that raises becomes a synthetic error-severity result. -/
def validate_record (re_match : String → String → Bool)
    (rules : List ValidationRule) (record : Record)
    (record_id : Option String) : List ValidationResult :=
  rules.flatMap (fun rule =>
    if rule.enabled then
      match apply_rule re_match rule record record_id with
      | Except.ok none => []
      | Except.ok (some r) => [r]
      | Except.error e =>
        [{ rule_name := rule.name, field := rule.field, is_valid := false,
           severity := "error",
           message := "Rule application error: " ++ e,
           record_id := record_id }]
    else [])

/-! ## Default rule set (`ValidationEngine._initialize_default_rules`) -/

/-- The fifty state codes accepted by `valid_state_format`. -/
def validStates : List String :=
  ["AL", "AK", "AZ", "AR", "CA", "CO", "CT", "DE", "FL", "GA",
   "HI", "ID", "IL", "IN", "IA", "KS", "KY", "LA", "ME", "MD",
   "MA", "MI", "MN", "MS", "MO", "MT", "NE", "NV", "NH", "NJ",
   "NM", "NY", "NC", "ND", "OH", "OK", "OR", "PA", "RI", "SC",
   "SD", "TN", "TX", "UT", "VT", "VA", "WA", "WV", "WI", "WY"]

def required_location_name : ValidationRule :=
  { name := "required_location_name",
    description := "Location name is required",
    field := "location_name", rule_type := "completeness",
    parameters := { required := some true }, severity := "error" }

def required_address : ValidationRule :=
  { name := "required_address",
    description := "Address information is required",
    field := "location_address", rule_type := "completeness",
    parameters := { required := some true }, severity := "error" }

def required_receipts : ValidationRule :=
  { name := "required_receipts",
    description := "Receipt data should be present",
    field := "total_receipts", rule_type := "completeness",
    parameters := { required := some true }, severity := "warning" }

def valid_zip_format : ValidationRule :=
  { name := "valid_zip_format",
    description := "ZIP code must be 5 digits",
    field := "location_zip", rule_type := "format",
    parameters := { pattern := some ("^\\d{5}(-\\d{4})?$") }, severity := "error" }

def valid_state_format : ValidationRule :=
  { name := "valid_state_format",
    description := "State must be valid two-letter code",
    field := "location_state", rule_type := "format",
    parameters := { valid_values := some validStates }, severity := "error" }

def reasonable_receipts : ValidationRule :=
  { name := "reasonable_receipts",
    description := "Total receipts should be reasonable for a restaurant",
    field := "total_receipts", rule_type := "range",
    parameters := { min := some 0, max := some 10000000 }, severity := "warning" }

def valid_latitude : ValidationRule :=
  { name := "valid_latitude",
    description := "Latitude must be valid",
    field := "latitude", rule_type := "range",
    parameters := { min := some (-90), max := some 90 }, severity := "error" }

def valid_longitude : ValidationRule :=
  { name := "valid_longitude",
    description := "Longitude must be valid",
    field := "longitude", rule_type := "range",
    parameters := { min := some (-180), max := some 180 }, severity := "error" }

def address_city_consistency : ValidationRule :=
  { name := "address_city_consistency",
    description := "City should be consistent in address",
    field := "location_address", rule_type := "consistency",
    parameters := { reference_field := some ("location_city") }, severity := "warning" }

def concept_confidence_threshold : ValidationRule :=
  { name := "concept_confidence_threshold",
    description := "Concept classification confidence should meet threshold",
    field := "concept_confidence", rule_type := "range",
    parameters := { min := some (3 / 10) }, severity := "warning" }

def reasonable_population : ValidationRule :=
  { name := "reasonable_population",
    description := "Population within 1 mile should be reasonable",
    field := "population_1_mile", rule_type := "range",
    parameters := { min := some 0, max := some 100000 }, severity := "warning" }

def reasonable_square_footage : ValidationRule :=
  { name := "reasonable_square_footage",
    description := "Square footage should be reasonable for restaurant",
    field := "square_footage", rule_type := "range",
    parameters := { min := some 100, max := some 50000 }, severity := "warning" }

/-- The default rule list installed by the engine constructor. -/
def default_rules : List ValidationRule :=
  [required_location_name, required_address, required_receipts,
   valid_zip_format, valid_state_format,
   reasonable_receipts, valid_latitude, valid_longitude,
   address_city_consistency, concept_confidence_threshold,
   reasonable_population, reasonable_square_footage]

/-! ## Quality analyzer (`validation_framework.DataQualityAnalyzer`) -/

/-- A tabular dataset: named columns over a list of record rows (`none`
cells inside a present column model pandas nulls via `Value.vNone`). -/
structure DataFrame where
  columns : List String
  rows : List Record

/-- pandas `df.empty`: any axis of length zero. -/
def dfEmpty (df : DataFrame) : Bool :=
  df.rows.isEmpty || df.columns.isEmpty

/-- pandas `isnull` on one cell. -/
def isNullCell : Option Value → Bool
  | none => true
  | some Value.vNone => true
  | some _ => false

/-- The number of invalid error-severity results. -/
def errorCount (results : List ValidationResult) : ℕ :=
  (results.filter (fun r => !r.is_valid && r.severity = "error")).length

/-- The number of invalid warning-severity results. -/
def warningCount (results : List ValidationResult) : ℕ :=
  (results.filter (fun r => !r.is_valid && r.severity = "warning")).length

/-- Embedding of `DataQualityAnalyzer._calculate_overall_quality_score`. -/
def calculate_overall_quality_score (rules : List ValidationRule)
    (validation_results : List ValidationResult) (total_records : ℕ) : ℚ :=
  if total_records = 0 then 1
  else
    let total_issues : ℚ := (errorCount validation_results : ℚ) * 1 +
      (warningCount validation_results : ℚ) * (1 / 2)
    let max_possible_issues : ℚ := (total_records : ℚ) * (rules.length : ℚ)
    if max_possible_issues = 0 then 1
    else round3 (max 0 (1 - total_issues / max_possible_issues))

/-- The key fields of `_calculate_completeness_score`. -/
def key_fields : List String :=
  ["location_name", "location_address", "location_city",
   "location_state", "location_zip", "total_receipts"]

/-- Embedding of `DataQualityAnalyzer._calculate_completeness_score`. -/
def calculate_completeness_score (df : DataFrame) : ℚ :=
  if dfEmpty df then 1
  else
    let completeness_scores : List ℚ :=
      (key_fields.filter (fun f => df.columns.contains f)).map (fun f =>
        1 - ((df.rows.filter (fun r => isNullCell (r f))).length : ℚ) /
          (df.rows.length : ℚ))
    if completeness_scores.isEmpty then 1
    else round3 (completeness_scores.sum / (completeness_scores.length : ℚ))

/-- Embedding of `DataQualityAnalyzer._calculate_accuracy_score`. -/
def calculate_accuracy_score (validation_results : List ValidationResult) : ℚ :=
  if validation_results.isEmpty then 1
  else
    let valid_results := (validation_results.filter (fun r => r.is_valid)).length
    let total_results := validation_results.length
    if 0 < total_results then round3 ((valid_results : ℚ) / (total_results : ℚ))
    else 1

/-- Embedding of `DataQualityAnalyzer._calculate_consistency_score`. -/
def calculate_consistency_score (df : DataFrame) : ℚ :=
  if dfEmpty df then 1
  else
    let consistency_scores : List ℚ :=
      (if df.columns.contains ("location_address") &&
          df.columns.contains ("location_city") then
        [((df.rows.filter (fun r =>
            strContains (lowerStr (pyStrGetD r ("location_address")))
              (lowerStr (pyStrGetD r ("location_city"))))).length : ℚ) /
          (df.rows.length : ℚ)]
      else []) ++
      (if df.columns.contains ("location_state") then
        [((df.rows.filter (fun r =>
            (pyStrOfValue ((r ("location_state")).getD Value.vNone)).length = 2)).length : ℚ) /
          (df.rows.length : ℚ)]
      else [])
    if consistency_scores.isEmpty then 1
    else round3 (consistency_scores.sum / (consistency_scores.length : ℚ))

/-- Embedding of `DataQualityAnalyzer._calculate_timeliness_score` (hardcoded). -/
def calculate_timeliness_score (_df : DataFrame) : ℚ := 1

/-- The fixed numeric field set of `_detect_outliers`. -/
def numeric_fields : List String :=
  ["total_receipts", "latitude", "longitude", "population_1_mile", "square_footage"]

/-- The non-null numeric values of a column
(to_numeric with coerce, then dropna). -/
def clean_numeric (df : DataFrame) (f : String) : List ℚ :=
  df.rows.filterMap (fun r => pyFloat ((r f).getD Value.vNone))

/-- pandas `Series.quantile` with the default linear interpolation, over a
nonempty value list. -/
def quantile (xs : List ℚ) (p : ℚ) : ℚ :=
  let s := xs.insertionSort (· ≤ ·)
  let h : ℚ := ((s.length : ℚ) - 1) * p
  let i : ℕ := (⌊h⌋).toNat
  let lo := s.getD i 0
  let hi := s.getD (i + 1) lo
  lo + (h - (i : ℚ)) * (hi - lo)

/-- Lower IQR fence `Q1 − 1.5·IQR` for a column. -/
def outlier_lower (df : DataFrame) (f : String) : ℚ :=
  let c := clean_numeric df f
  let q1 := quantile c (1 / 4)
  let q3 := quantile c (3 / 4)
  q1 - (3 / 2) * (q3 - q1)

/-- Upper IQR fence `Q3 + 1.5·IQR` for a column. -/
def outlier_upper (df : DataFrame) (f : String) : ℚ :=
  let c := clean_numeric df f
  let q1 := quantile c (1 / 4)
  let q3 := quantile c (3 / 4)
  q3 + (3 / 2) * (q3 - q1)

/-- Whether the value of a row in a column falls outside the IQR fences
(rows with no numeric value are never selected, like NaN comparisons). -/
def outlierPred (df : DataFrame) (f : String) (r : Record) : Bool :=
  match pyFloat ((r f).getD Value.vNone) with
  | some v => decide (v < outlier_lower df f) || decide (outlier_upper df f < v)
  | none => false

/-- Rendering str of the id cell, the identifier `_detect_outliers` and
`_detect_duplicates` extract. -/
def rowIdStr (r : Record) : String :=
  pyStrOfValue ((r ("id")).getD Value.vNone)

/-- Flagged ids contributed by one column of `_detect_outliers`: requires
more than 10 non-null numeric values; a missing `id` column raises
`KeyError`, which the per-field handler swallows. -/
def outliers_for_field (df : DataFrame) (f : String) : List String :=
  if 10 < (clean_numeric df f).length then
    if ("id") ∈ df.columns then
      (df.rows.filter (outlierPred df f)).map rowIdStr
    else []
  else []

/-- Embedding of `DataQualityAnalyzer._detect_outliers`: union over the fixed numeric
fields present in the frame, deduplicated (`list(set(...))` — modelled by
`dedup`, which keeps the set of ids and removes repeats). -/
def detect_outliers (df : DataFrame) : List String :=
  (numeric_fields.flatMap (fun f =>
    if f ∈ df.columns then outliers_for_field df f else [])).dedup

/-- The (name, address, city) key of `_detect_duplicates`. -/
def dupKey (r : Record) : Option Value × Option Value × Option Value :=
  (r ("location_name"), r ("location_address"), r ("location_city"))

/-- Embedding of `DataQualityAnalyzer._detect_duplicates`: every member of a key group
of size at least two is flagged (`keep=False`); a missing subset or `id`
column raises `KeyError`, which the handler swallows. -/
def detect_duplicates (df : DataFrame) : List String :=
  if ("location_name") ∈ df.columns ∧ ("location_address") ∈ df.columns ∧
      ("location_city") ∈ df.columns ∧ ("id") ∈ df.columns then
    ((df.rows.filter (fun r =>
        2 ≤ (df.rows.filter (fun r2 => dupKey r2 = dupKey r)).length)).map rowIdStr).dedup
  else []

/-- The columns of a row with null cells (`df.isnull()` row image). -/
def missingFields (df : DataFrame) (r : Record) : List String :=
  df.columns.filter (fun c => isNullCell (r c))

/-- The missing-data pattern key: sorted missing field names joined by
underscores. -/
def patternKey (fs : List String) : String :=
  String.intercalate ("_") (fs.insertionSort (· ≤ ·))

/-- Embedding of `DataQualityAnalyzer._analyze_missing_data_patterns`, as the map from
pattern key to the ids of records missing more than one field (a missing
`id` column raises before any id is bucketed, leaving the map empty). -/
def analyze_missing_data_patterns (df : DataFrame) : String → List String :=
  fun key =>
    if ("id") ∈ df.columns then
      ((df.rows.filter (fun r =>
          1 < (missingFields df r).length ∧ patternKey (missingFields df r) = key)).map
        rowIdStr)
    else []

/-- The id passed to `validate_record` for a row
(str of the id cell, defaulting to record_ followed by the row index). -/
def analysisRecordId (r : Record) (idx : ℕ) : String :=
  match r ("id") with
  | some v => pyStrOfValue v
  | none => "record_" ++ toString idx

/-- The quality report (`QualityReport` dataclass; the issue summaries are
modelled as counting functions, `generated_at` is wall clock and omitted). -/
structure QualityReport where
  total_records : ℕ
  validation_results : List ValidationResult
  quality_score : ℚ
  completeness_score : ℚ
  accuracy_score : ℚ
  consistency_score : ℚ
  timeliness_score : ℚ
  errors_by_field : String → ℕ
  warnings_by_field : String → ℕ
  errors_by_type : String → ℕ
  outlier_records : List String
  duplicate_records : List String
  missing_data_patterns : String → List String

/-- All validation results of a dataset, rows validated in order. -/
def datasetResults (re_match : String → String → Bool)
    (rules : List ValidationRule) (df : DataFrame) : List ValidationResult :=
  df.rows.enum.flatMap (fun p =>
    validate_record re_match rules p.2 (some (analysisRecordId p.2 p.1)))

/-- Embedding of `DataQualityAnalyzer.analyze_dataset_quality`. -/
def analyze_dataset_quality (re_match : String → String → Bool)
    (rules : List ValidationRule) (df : DataFrame) : QualityReport :=
  let all_results := datasetResults re_match rules df
  let total_records := df.rows.length
  { total_records := total_records,
    validation_results := all_results,
    quality_score := calculate_overall_quality_score rules all_results total_records,
    completeness_score := calculate_completeness_score df,
    accuracy_score := calculate_accuracy_score all_results,
    consistency_score := calculate_consistency_score df,
    timeliness_score := calculate_timeliness_score df,
    errors_by_field := fun f => (all_results.filter (fun r =>
      !r.is_valid && r.severity = "error" && r.field = f)).length,
    warnings_by_field := fun f => (all_results.filter (fun r =>
      !r.is_valid && !(r.severity = "error") && r.field = f)).length,
    errors_by_type := fun t => (all_results.filter (fun r =>
      !r.is_valid && (r.severity ++ "_" ++ r.rule_name) = t)).length,
    outlier_records := detect_outliers df,
    duplicate_records := detect_duplicates df,
    missing_data_patterns := analyze_missing_data_patterns df }

/-! ## Enrichment pipeline (`enrichment_pipeline.DataEnrichmentPipeline`) -/

/-- The entity fields `enrich_single_restaurant` reads. -/
structure Restaurant where
  location_name : String
  full_address : String
  location_county : String
deriving DecidableEq

/-- A concept classification result (`confidence` drives the threshold,
`primary_concept` is only logged). -/
structure Classification where
  primary_concept : String
  confidence : ℚ
deriving DecidableEq

/-- A population analysis result. -/
structure PopulationResult where
  census_data_available : Bool
  population_1_mile : ℤ
deriving DecidableEq

/-- A square footage scraping result (`square_footage` is tested for
truthiness: `None` and `0` both take the warning branch). -/
structure SqftResult where
  square_footage : Option ℤ
deriving DecidableEq

/-- Python truthiness of `sqft_result.square_footage`. -/
def sqftTruthy : Option ℤ → Bool
  | none => false
  | some n => !(n = 0)

/-- The external collaborators of the pipeline (database manager and the
three task objects); a raised exception is `Except.error` with the
exception text. -/
structure PipelineEnv where
  get_restaurant_by_id : String → Except String (Option Restaurant)
  classify_restaurant : String → String → Except String Classification
  analyze_location : String → String → Except String PopulationResult
  scrape_square_footage : String → String → String → Except String SqftResult
  store_concept_classification : String → Classification → Except String Unit
  store_population_data : String → PopulationResult → Except String Unit
  store_square_footage_data : String → SqftResult → Except String Unit

/-- The pipeline enablement flags (constructor defaults: all on). -/
structure PipelineConfig where
  enable_concept_classification : Bool := true
  enable_population_analysis : Bool := true
  enable_square_footage_scraping : Bool := true
deriving DecidableEq

/-- The result of enriching one restaurant (`EnrichmentResult` dataclass;
`data_collected` keeps the keys set to `True` in insertion order,
`processing_time` is wall clock and fixed to 0 in the model). -/
structure EnrichmentResult where
  restaurant_id : String
  success : Bool
  errors : List String
  warnings : List String
  processing_time : ℚ
  data_collected : List String
deriving DecidableEq

/-- Observable task invocations of one `enrich_single_restaurant` call. -/
inductive TaskCall where
  | classify : TaskCall
  | population : TaskCall
  | square_footage : TaskCall
deriving DecidableEq

/-- Mutable locals of `enrich_single_restaurant`, plus the invocation
trace. -/
structure EnrichState where
  errors : List String
  warnings : List String
  data_collected : List String
  calls : List TaskCall
deriving DecidableEq

/-- Step 1 of `enrich_single_restaurant`: concept classification, with its
own `try/except` appending `"Concept classification failed: <e>"`. -/
def step_classification (env : PipelineEnv) (cfg : PipelineConfig)
    (restaurant_id : String) (r : Restaurant) (st : EnrichState) : EnrichState :=
  if cfg.enable_concept_classification then
    let st := { st with calls := st.calls ++ [TaskCall.classify] }
    match env.classify_restaurant r.location_name r.full_address with
    | Except.error e =>
      { st with errors := st.errors ++ ["Concept classification failed: " ++ e] }
    | Except.ok classification =>
      if classification.confidence > 3 / 10 then
        match env.store_concept_classification restaurant_id classification with
        | Except.error e =>
          { st with errors := st.errors ++ ["Concept classification failed: " ++ e] }
        | Except.ok _ =>
          { st with data_collected := st.data_collected ++ ["concept_classification"] }
      else
        { st with warnings := st.warnings ++
            ["Low confidence in concept classification: " ++
              formatFixed2 classification.confidence] }
  else st

/-- Step 2: population analysis, with its own `try/except` appending
`"Population analysis failed: <e>"`. -/
def step_population (env : PipelineEnv) (cfg : PipelineConfig)
    (restaurant_id : String) (r : Restaurant) (st : EnrichState) : EnrichState :=
  if cfg.enable_population_analysis then
    let st := { st with calls := st.calls ++ [TaskCall.population] }
    match env.analyze_location r.location_name r.full_address with
    | Except.error e =>
      { st with errors := st.errors ++ ["Population analysis failed: " ++ e] }
    | Except.ok population_result =>
      if population_result.census_data_available then
        match env.store_population_data restaurant_id population_result with
        | Except.error e =>
          { st with errors := st.errors ++ ["Population analysis failed: " ++ e] }
        | Except.ok _ =>
          { st with data_collected := st.data_collected ++ ["population_analysis"] }
      else
        { st with warnings := st.warnings ++ ["Population analysis returned no data"] }
  else st

/-- Step 3: square footage scraping, with its own `try/except` appending
`"Square footage scraping failed: <e>"`. -/
def step_sqft (env : PipelineEnv) (cfg : PipelineConfig)
    (restaurant_id : String) (r : Restaurant) (st : EnrichState) : EnrichState :=
  if cfg.enable_square_footage_scraping then
    let st := { st with calls := st.calls ++ [TaskCall.square_footage] }
    match env.scrape_square_footage r.location_name r.full_address r.location_county with
    | Except.error e =>
      { st with errors := st.errors ++ ["Square footage scraping failed: " ++ e] }
    | Except.ok sqft_result =>
      if sqftTruthy sqft_result.square_footage then
        match env.store_square_footage_data restaurant_id sqft_result with
        | Except.error e =>
          { st with errors := st.errors ++ ["Square footage scraping failed: " ++ e] }
        | Except.ok _ =>
          { st with data_collected := st.data_collected ++ ["square_footage"] }
      else
        { st with warnings := st.warnings ++ ["No square footage data found"] }
  else st

/-- Embedding of `DataEnrichmentPipeline.enrich_single_restaurant`, returning the
result together with the task-invocation trace.  The function is total:
a lookup exception is absorbed by the outer `except Exception`
handler, per-task exceptions by the per-task handlers. -/
def enrich_single_restaurant (env : PipelineEnv) (cfg : PipelineConfig)
    (restaurant_id : String) : EnrichmentResult × List TaskCall :=
  match env.get_restaurant_by_id restaurant_id with
  | Except.error e =>
    ({ restaurant_id := restaurant_id, success := false,
       errors := ["Unexpected error: " ++ e], warnings := [],
       processing_time := 0, data_collected := [] }, [])
  | Except.ok none =>
    ({ restaurant_id := restaurant_id, success := false,
       errors := ["Restaurant " ++ restaurant_id ++ " not found in database"],
       warnings := [], processing_time := 0, data_collected := [] }, [])
  | Except.ok (some r) =>
    let st := step_sqft env cfg restaurant_id r
      (step_population env cfg restaurant_id r
        (step_classification env cfg restaurant_id r
          { errors := [], warnings := [], data_collected := [], calls := [] }))
    ({ restaurant_id := restaurant_id, success := st.errors.isEmpty,
       errors := st.errors, warnings := st.warnings,
       processing_time := 0, data_collected := st.data_collected }, st.calls)

/-! ## Job lifecycle (`process_enrichment_job` and
`DatabaseManager.update_enrichment_job_status`) -/

/-- The `results_summary` payload stored on terminal transitions (the
dictionaries built in `process_enrichment_job`; both are nonempty, hence
truthy). -/
inductive JobSummary where
  | completedSummary (data_collected : List String) (processing_time : ℚ) : JobSummary
  | failedSummary (errors : List String) (warnings : List String) : JobSummary
deriving DecidableEq

/-- A persisted enrichment job (`EnrichmentJob` model; the wall-clock
`started_at`/`completed_at` columns are omitted). -/
structure EnrichmentJob where
  id : ℕ
  restaurant_id : String
  job_type : String
  status : String
  progress : ℕ
  error_message : Option String
  results_summary : Option JobSummary
deriving DecidableEq

/-- The job table, keyed by job id. -/
abbrev JobStore := ℕ → Option EnrichmentJob

/-- Embedding of `DatabaseManager.update_enrichment_job_status`: no-op when the job is
absent; otherwise set the status, optionally the progress, the error
message only on `failed`, and the summary when one is given. -/
def update_enrichment_job_status (store : JobStore) (job_id : ℕ) (status : String)
    (progress : Option ℕ) (error_message : Option String)
    (results_summary : Option JobSummary) : JobStore :=
  match store job_id with
  | none => store
  | some job =>
    let job := { job with status := status }
    let job := match progress with
      | some p => { job with progress := p }
      | none => job
    let job := if status = "failed" then { job with error_message := error_message } else job
    let job := match results_summary with
      | some s => { job with results_summary := some s }
      | none => job
    fun k => if k = job_id then some job else store k

/-- Embedding of `DataEnrichmentPipeline.process_enrichment_job`, returning the success
flag, the updated job table, and the sequence of status values written for
the job (the observable status trajectory of the call).  The outer
`except` handler is unreachable in the model because the embedded
`enrich_single_restaurant` and store updates are total. -/
def process_enrichment_job (env : PipelineEnv) (cfg : PipelineConfig)
    (store : JobStore) (job_id : ℕ) : Bool × JobStore × List String :=
  match store job_id with
  | none => (false, store, [])
  | some job =>
    let store1 : JobStore :=
      fun k => if k = job_id then some { job with status := "running" } else store k
    let result :=
      if job.job_type = "full_enrichment" then
        (enrich_single_restaurant env cfg job.restaurant_id).1
      else
        { restaurant_id := job.restaurant_id, success := false,
          errors := ["Unsupported job type: " ++ job.job_type], warnings := [],
          processing_time := 0, data_collected := [] }
    if result.success then
      (true,
       update_enrichment_job_status store1 job_id ("completed") (some 100) none
         (some (JobSummary.completedSummary result.data_collected result.processing_time)),
       ["running", "completed"])
    else
      (false,
       update_enrichment_job_status store1 job_id ("failed") (some 0)
         (some ("Enrichment failed: " ++ String.intercalate ("; ") result.errors))
         (some (JobSummary.failedSummary result.errors result.warnings)),
       ["running", "failed"])

/-! ## Concrete instances used by witnesses -/

/-- A sample restaurant used by concrete instantiations. -/
def exRestaurant : Restaurant :=
  { location_name := "Sample Cafe", full_address := "1 Main St, Austin",
    location_county := "Travis" }

/-- An environment whose lookup finds `exRestaurant`, whose classifier
raises, and whose other tasks succeed with storable data. -/
def envFound : PipelineEnv :=
  { get_restaurant_by_id := fun _ => Except.ok (some exRestaurant),
    classify_restaurant := fun _ _ => Except.error ("classifier down"),
    analyze_location := fun _ _ =>
      Except.ok { census_data_available := true, population_1_mile := 1200 },
    scrape_square_footage := fun _ _ _ => Except.ok { square_footage := some 2500 },
    store_concept_classification := fun _ _ => Except.ok (),
    store_population_data := fun _ _ => Except.ok (),
    store_square_footage_data := fun _ _ => Except.ok () }

/-- An environment whose lookup finds no entity. -/
def envMissing : PipelineEnv :=
  { envFound with get_restaurant_by_id := fun _ => Except.ok none }

/-- An environment whose lookup itself raises. -/
def envRaise : PipelineEnv :=
  { envFound with get_restaurant_by_id := fun _ => Except.error ("connection lost") }

/-- A regex environment sufficient for the witnesses (never consulted by
them). -/
def noRe : String → String → Bool := fun _ _ => false

/-- The record with no keys. -/
def emptyRecord : Record := fun _ => none

/-! ## C3 -/

/-- C3: for an entity id whose entity is absent from the store,
`enrich_single_restaurant` returns a failed result with exactly one
not-found error, no warnings, no collected data, and performs zero task
invocations (empty trace). -/
theorem enrich_single_missing_entity (env : PipelineEnv) (cfg : PipelineConfig)
    (rid : String) (h : env.get_restaurant_by_id rid = Except.ok none) :
    enrich_single_restaurant env cfg rid =
      ({ restaurant_id := rid, success := false,
         errors := ["Restaurant " ++ rid ++ " not found in database"],
         warnings := [], processing_time := 0, data_collected := [] }, []) := by
  simp [enrich_single_restaurant, h]

/-- Witness for C3 at a concrete environment and id. -/
theorem enrich_single_missing_entity_witness :
    envMissing.get_restaurant_by_id ("r42") = Except.ok none ∧
    enrich_single_restaurant envMissing {} ("r42") =
      ({ restaurant_id := "r42", success := false,
         errors := ["Restaurant " ++ "r42" ++ " not found in database"],
         warnings := [], processing_time := 0, data_collected := [] }, []) :=
  ⟨rfl, enrich_single_missing_entity envMissing {} ("r42") rfl⟩

/-! ## C10 -/

/-- C10: `enrich_single_restaurant` is total by construction (it returns a
result for every store/task behaviour, all of which are absorbed by the
per-task handlers or the outer handler); when an exception escapes to the
outer handler — in the model, exactly when the store lookup raises — the
result is failed with the single error entry prefixed by the text
Unexpected error, and with empty collected data. -/
theorem enrich_single_unexpected_error (env : PipelineEnv) (cfg : PipelineConfig)
    (rid : String) (e : String) (h : env.get_restaurant_by_id rid = Except.error e) :
    enrich_single_restaurant env cfg rid =
      ({ restaurant_id := rid, success := false,
         errors := ["Unexpected error: " ++ e],
         warnings := [], processing_time := 0, data_collected := [] }, []) := by
  simp [enrich_single_restaurant, h]

/-- Witness for C10 at a concrete environment whose lookup raises. -/
theorem enrich_single_unexpected_error_witness :
    envRaise.get_restaurant_by_id ("r7") = Except.error ("connection lost") ∧
    enrich_single_restaurant envRaise {} ("r7") =
      ({ restaurant_id := "r7", success := false,
         errors := ["Unexpected error: " ++ "connection lost"],
         warnings := [], processing_time := 0, data_collected := [] }, []) :=
  ⟨rfl, enrich_single_unexpected_error envRaise {} ("r7") ("connection lost") rfl⟩

/-! ## C2 -/

/-- A job table holding a single job that is already terminal. -/
def terminalJobStore : JobStore :=
  fun k =>
    if k = 1 then
      some { id := 1, restaurant_id := "r1", job_type := "other",
             status := "completed", progress := 100,
             error_message := none, results_summary := none }
    else none

/-- C2: the claimed invariant that no job re-enters `running` once
terminal fails on the code — `process_enrichment_job` writes
`status = running` unconditionally, so invoking it on a job whose status
is already `completed` makes the job re-enter `running` (first status
write of the call) before it is moved to `failed`.  This evaluates the
embedded code at that failing input. -/
theorem process_job_reenters_running_from_terminal :
    ((terminalJobStore 1).map EnrichmentJob.status = some ("completed")) ∧
    (process_enrichment_job envFound {} terminalJobStore 1).2.2 = ["running", "failed"] ∧
    (((process_enrichment_job envFound {} terminalJobStore 1).2.1 1).map
      EnrichmentJob.status = some ("failed")) :=
  ⟨rfl, rfl, rfl⟩

/-! ## C7 -/

/-- C7: when the targeted field of a record is missing (None) or the empty
string, a rule produces exactly one violation if it is a completeness rule
with required = true (carrying the rule description and severity), and
produces nothing at all otherwise — in particular no format, range,
consistency or custom rule emits any result, and none raises. -/
theorem apply_rule_missing_field (re_match : String → String → Bool)
    (rule : ValidationRule) (record : Record) (rid : Option String)
    (h : isMissing (record rule.field) = true) :
    apply_rule re_match rule record rid =
      Except.ok
        (if rule.rule_type = "completeness" ∧ rule.parameters.required.getD false = true
         then some (completenessMissingResult rule record rid)
         else none) := by
  simp only [apply_rule, h, if_true]
  rw [apply_ite Except.ok]

/-- Witness for C7: the default required-name rule fires on the empty
record; instantiating the theorem there. -/
theorem apply_rule_missing_field_witness :
    isMissing (emptyRecord required_location_name.field) = true ∧
    apply_rule noRe required_location_name emptyRecord (some ("1")) =
      Except.ok
        (if required_location_name.rule_type = "completeness" ∧
            required_location_name.parameters.required.getD false = true
         then some (completenessMissingResult required_location_name emptyRecord (some ("1")))
         else none) :=
  ⟨rfl, apply_rule_missing_field noRe required_location_name emptyRecord (some ("1")) rfl⟩

/-! ## C9 -/

/-- C9: a range rule with both bounds configured, applied to a present
field value, yields exactly one of the three distinct violations — the
below-minimum message when the parsed number is less than the minimum, the
above-maximum message when it is greater than the maximum, the
not-numeric message when parsing fails — and no violation when the parsed
number lies within the bounds. -/
theorem apply_rule_range_cases (re_match : String → String → Bool)
    (rule : ValidationRule) (record : Record) (rid : Option String)
    (v : Value) (mn mx : ℚ)
    (hv : record rule.field = some v) (hm : isMissing (some v) = false)
    (ht : rule.rule_type = "range")
    (hmin : rule.parameters.min = some mn) (hmax : rule.parameters.max = some mx) :
    apply_rule re_match rule record rid =
      Except.ok
        (match pyFloat v with
         | none => some (rangeNotNumericResult rule v rid)
         | some x =>
           if x < mn then some (rangeBelowResult rule v rid mn)
           else if mx < x then some (rangeAboveResult rule v rid mx)
           else none) := by
  have hne : ¬ rule.rule_type = "format" := by rw [ht]; decide
  simp only [apply_rule, hv, hm, Bool.false_eq_true, if_false, ht, if_neg hne]
  simp only [validate_range, validate_range_max, hmin, hmax]
  cases hx : pyFloat v with
  | none => rfl
  | some x => rfl

/-- Witness for C9: the receipts range rule on the string value abc takes
the not-numeric branch; the other two branch messages are distinct from it
and from each other at these concrete bounds. -/
theorem apply_rule_range_cases_witness :
    (fun _ => some (Value.vStr ("abc")) : Record) reasonable_receipts.field =
      some (Value.vStr ("abc")) ∧
    apply_rule noRe reasonable_receipts (fun _ => some (Value.vStr ("abc"))) none =
      Except.ok (some (rangeNotNumericResult reasonable_receipts (Value.vStr ("abc")) none)) ∧
    (rangeBelowResult reasonable_receipts (Value.vNum (-5)) none 0).message ≠
      (rangeAboveResult reasonable_receipts (Value.vNum (-5)) none 10000000).message ∧
    (rangeBelowResult reasonable_receipts (Value.vNum (-5)) none 0).message ≠
      (rangeNotNumericResult reasonable_receipts (Value.vNum (-5)) none).message ∧
    (rangeAboveResult reasonable_receipts (Value.vNum (-5)) none 10000000).message ≠
      (rangeNotNumericResult reasonable_receipts (Value.vNum (-5)) none).message := by
  refine ⟨rfl, ?_, by decide, by decide, by decide⟩
  have h := apply_rule_range_cases noRe reasonable_receipts
    (fun _ => some (Value.vStr ("abc"))) none (Value.vStr ("abc")) 0 10000000
    rfl rfl rfl rfl rfl
  rw [h]
  rfl

/-! ## C4 -/

/-- The failing record for C4: a city value that does not occur in the
address value. -/
def recInconsistent : Record := fun f =>
  if f = "location_address" then some (Value.vStr ("123 Main St"))
  else if f = "location_city" then some (Value.vStr ("Dallas")) else none

/-- C4: the claim says the consistency rule flags every record whose
non-empty reference value is not a case-insensitive substring of the
target value; but the code first requires the reference field NAME to
occur verbatim in the target value (`ref_field in record.get(rule.field,
...)`), so on this record — non-empty target, non-empty city Dallas that
does not occur in the address — the embedded rule emits no violation,
contradicting the claim (and the comment in the source). -/
theorem consistency_rule_guard_blocks_violation :
    pyTruthy (recInconsistent ("location_city")) = true ∧
    strContains (lowerStr (pyStrGetD recInconsistent ("location_address")))
      (lowerStr (pyStrOfValue ((recInconsistent ("location_city")).getD Value.vNone))) =
      false ∧
    apply_rule noRe address_city_consistency recInconsistent (some ("1")) =
      Except.ok none := by
  refine ⟨rfl, by decide, rfl⟩

/-! ## C5 -/

/-- C5: for a non-empty dataset the overall quality score equals the
claimed weighted formula (errors weighted 1.0, invalid warnings 0.5,
denominator records times registered rules) clamped at 0 and rounded to 3
decimals; for an empty dataset it is 1.  (When the rule list is empty the
code returns 1 directly, which agrees with the formula under the rational
convention that division by zero is zero.) -/
theorem quality_score_formula (rules : List ValidationRule)
    (results : List ValidationResult) (n : ℕ) :
    (0 < n → calculate_overall_quality_score rules results n =
      round3 (max 0 (1 -
        ((errorCount results : ℚ) * 1 + (warningCount results : ℚ) * (1 / 2)) /
        ((n : ℚ) * (rules.length : ℚ))))) ∧
    (n = 0 → calculate_overall_quality_score rules results n = 1) := by
  constructor
  · intro hn
    unfold calculate_overall_quality_score
    rw [if_neg (Nat.pos_iff_ne_zero.mp hn)]
    by_cases hmp : ((n : ℚ) * (rules.length : ℚ)) = 0
    · rw [if_pos hmp, hmp, div_zero]
      norm_num [round3]
    · rw [if_neg hmp]
  · intro hn
    subst hn
    rfl

/-- Witness for C5 on the default rules with one invalid error result
over two records. -/
theorem quality_score_formula_witness :
    0 < 2 ∧
    calculate_overall_quality_score default_rules [] 2 =
      round3 (max 0 (1 -
        ((errorCount [] : ℚ) * 1 + (warningCount [] : ℚ) * (1 / 2)) /
        (((2 : ℕ) : ℚ) * (default_rules.length : ℚ)))) :=
  ⟨by decide, (quality_score_formula default_rules [] 2).1 (by decide)⟩

/-! ## C1 -/

/-- The error (if any) contributed by the classification task: the caught
exception of the task call or of the subsequent store call, formatted with
the task tag. -/
def classificationError (env : PipelineEnv) (cfg : PipelineConfig)
    (restaurant_id : String) (r : Restaurant) : Option String :=
  if cfg.enable_concept_classification then
    match env.classify_restaurant r.location_name r.full_address with
    | Except.error e => some ("Concept classification failed: " ++ e)
    | Except.ok classification =>
      if classification.confidence > 3 / 10 then
        match env.store_concept_classification restaurant_id classification with
        | Except.error e => some ("Concept classification failed: " ++ e)
        | Except.ok _ => none
      else none
  else none

/-- The warning (if any) contributed by the classification task. -/
def classificationWarning (env : PipelineEnv) (cfg : PipelineConfig)
    (r : Restaurant) : Option String :=
  if cfg.enable_concept_classification then
    match env.classify_restaurant r.location_name r.full_address with
    | Except.error _ => none
    | Except.ok classification =>
      if classification.confidence > 3 / 10 then none
      else some ("Low confidence in concept classification: " ++
        formatFixed2 classification.confidence)
  else none

/-- Whether the classification task collects data. -/
def classificationCollected (env : PipelineEnv) (cfg : PipelineConfig)
    (restaurant_id : String) (r : Restaurant) : Bool :=
  if cfg.enable_concept_classification then
    match env.classify_restaurant r.location_name r.full_address with
    | Except.error _ => false
    | Except.ok classification =>
      if classification.confidence > 3 / 10 then
        match env.store_concept_classification restaurant_id classification with
        | Except.error _ => false
        | Except.ok _ => true
      else false
  else false

/-- The error (if any) contributed by the population task. -/
def populationError (env : PipelineEnv) (cfg : PipelineConfig)
    (restaurant_id : String) (r : Restaurant) : Option String :=
  if cfg.enable_population_analysis then
    match env.analyze_location r.location_name r.full_address with
    | Except.error e => some ("Population analysis failed: " ++ e)
    | Except.ok population_result =>
      if population_result.census_data_available then
        match env.store_population_data restaurant_id population_result with
        | Except.error e => some ("Population analysis failed: " ++ e)
        | Except.ok _ => none
      else none
  else none

/-- The warning (if any) contributed by the population task. -/
def populationWarning (env : PipelineEnv) (cfg : PipelineConfig)
    (r : Restaurant) : Option String :=
  if cfg.enable_population_analysis then
    match env.analyze_location r.location_name r.full_address with
    | Except.error _ => none
    | Except.ok population_result =>
      if population_result.census_data_available then none
      else some ("Population analysis returned no data")
  else none

/-- Whether the population task collects data. -/
def populationCollected (env : PipelineEnv) (cfg : PipelineConfig)
    (restaurant_id : String) (r : Restaurant) : Bool :=
  if cfg.enable_population_analysis then
    match env.analyze_location r.location_name r.full_address with
    | Except.error _ => false
    | Except.ok population_result =>
      if population_result.census_data_available then
        match env.store_population_data restaurant_id population_result with
        | Except.error _ => false
        | Except.ok _ => true
      else false
  else false

/-- The error (if any) contributed by the square footage task. -/
def sqftError (env : PipelineEnv) (cfg : PipelineConfig)
    (restaurant_id : String) (r : Restaurant) : Option String :=
  if cfg.enable_square_footage_scraping then
    match env.scrape_square_footage r.location_name r.full_address r.location_county with
    | Except.error e => some ("Square footage scraping failed: " ++ e)
    | Except.ok sqft_result =>
      if sqftTruthy sqft_result.square_footage then
        match env.store_square_footage_data restaurant_id sqft_result with
        | Except.error e => some ("Square footage scraping failed: " ++ e)
        | Except.ok _ => none
      else none
  else none

/-- The warning (if any) contributed by the square footage task. -/
def sqftWarning (env : PipelineEnv) (cfg : PipelineConfig)
    (r : Restaurant) : Option String :=
  if cfg.enable_square_footage_scraping then
    match env.scrape_square_footage r.location_name r.full_address r.location_county with
    | Except.error _ => none
    | Except.ok sqft_result =>
      if sqftTruthy sqft_result.square_footage then none
      else some ("No square footage data found")
  else none

/-- Whether the square footage task collects data. -/
def sqftCollected (env : PipelineEnv) (cfg : PipelineConfig)
    (restaurant_id : String) (r : Restaurant) : Bool :=
  if cfg.enable_square_footage_scraping then
    match env.scrape_square_footage r.location_name r.full_address r.location_county with
    | Except.error _ => false
    | Except.ok sqft_result =>
      if sqftTruthy sqft_result.square_footage then
        match env.store_square_footage_data restaurant_id sqft_result with
        | Except.error _ => false
        | Except.ok _ => true
      else false
  else false

/-- Characterization of the classification step: it always appends its
invocation when enabled, and appends exactly its own contribution to each
accumulator, whatever the task outcome. -/
theorem step_classification_spec (env : PipelineEnv) (cfg : PipelineConfig)
    (rid : String) (r : Restaurant) (st : EnrichState) :
    step_classification env cfg rid r st =
      { errors := st.errors ++ (classificationError env cfg rid r).toList,
        warnings := st.warnings ++ (classificationWarning env cfg r).toList,
        data_collected := st.data_collected ++
          (if classificationCollected env cfg rid r then ["concept_classification"] else []),
        calls := st.calls ++
          (if cfg.enable_concept_classification then [TaskCall.classify] else []) } := by
  unfold step_classification classificationError classificationWarning classificationCollected
  cases hf : cfg.enable_concept_classification with
  | false => simp
  | true =>
    cases hc : env.classify_restaurant r.location_name r.full_address with
    | error e => simp
    | ok classification =>
      by_cases hconf : classification.confidence > 3 / 10
      · cases hs : env.store_concept_classification rid classification <;>
          simp [hconf, hs]
      · simp [hconf]

/-- Characterization of the population step. -/
theorem step_population_spec (env : PipelineEnv) (cfg : PipelineConfig)
    (rid : String) (r : Restaurant) (st : EnrichState) :
    step_population env cfg rid r st =
      { errors := st.errors ++ (populationError env cfg rid r).toList,
        warnings := st.warnings ++ (populationWarning env cfg r).toList,
        data_collected := st.data_collected ++
          (if populationCollected env cfg rid r then ["population_analysis"] else []),
        calls := st.calls ++
          (if cfg.enable_population_analysis then [TaskCall.population] else []) } := by
  unfold step_population populationError populationWarning populationCollected
  cases hf : cfg.enable_population_analysis with
  | false => simp
  | true =>
    cases hc : env.analyze_location r.location_name r.full_address with
    | error e => simp
    | ok population_result =>
      cases hd : population_result.census_data_available with
      | false => simp [hd]
      | true =>
        cases hs : env.store_population_data rid population_result <;> simp [hd, hs]

/-- Characterization of the square footage step. -/
theorem step_sqft_spec (env : PipelineEnv) (cfg : PipelineConfig)
    (rid : String) (r : Restaurant) (st : EnrichState) :
    step_sqft env cfg rid r st =
      { errors := st.errors ++ (sqftError env cfg rid r).toList,
        warnings := st.warnings ++ (sqftWarning env cfg r).toList,
        data_collected := st.data_collected ++
          (if sqftCollected env cfg rid r then ["square_footage"] else []),
        calls := st.calls ++
          (if cfg.enable_square_footage_scraping then [TaskCall.square_footage] else []) } := by
  unfold step_sqft sqftError sqftWarning sqftCollected
  cases hf : cfg.enable_square_footage_scraping with
  | false => simp
  | true =>
    cases hc : env.scrape_square_footage r.location_name r.full_address r.location_county with
    | error e => simp
    | ok sqft_result =>
      cases hd : sqftTruthy sqft_result.square_footage with
      | false => simp [hd]
      | true =>
        cases hs : env.store_square_footage_data rid sqft_result <;> simp [hd, hs]

/-- C1: task isolation in `enrich_single_restaurant` on an existing
entity — (1) the invocation trace is exactly the enabled tasks in order,
independently of any task failures (no failure aborts later tasks);
(2) the error list is exactly the concatenation of the per-task optional
errors, each a single string of the form tag ++ ": " ++ cause for the
failing task; (3) the result succeeds iff the error list is empty. -/
theorem enrich_single_task_isolation (env : PipelineEnv) (cfg : PipelineConfig)
    (rid : String) (r : Restaurant)
    (h : env.get_restaurant_by_id rid = Except.ok (some r)) :
    ((enrich_single_restaurant env cfg rid).2 =
      (if cfg.enable_concept_classification then [TaskCall.classify] else []) ++
      (if cfg.enable_population_analysis then [TaskCall.population] else []) ++
      (if cfg.enable_square_footage_scraping then [TaskCall.square_footage] else [])) ∧
    ((enrich_single_restaurant env cfg rid).1.errors =
      (classificationError env cfg rid r).toList ++
      (populationError env cfg rid r).toList ++
      (sqftError env cfg rid r).toList) ∧
    ((enrich_single_restaurant env cfg rid).1.success = true ↔
      (enrich_single_restaurant env cfg rid).1.errors = []) := by
  have hmain : enrich_single_restaurant env cfg rid =
      (let st := step_sqft env cfg rid r
        (step_population env cfg rid r
          (step_classification env cfg rid r
            { errors := [], warnings := [], data_collected := [], calls := [] }))
       ({ restaurant_id := rid, success := st.errors.isEmpty,
          errors := st.errors, warnings := st.warnings,
          processing_time := 0, data_collected := st.data_collected }, st.calls)) := by
    simp [enrich_single_restaurant, h]
  rw [hmain, step_classification_spec, step_population_spec, step_sqft_spec]
  refine ⟨by simp, by simp, ?_⟩
  simp [List.isEmpty_iff]

/-- Witness for C1: a concrete environment where the classifier throws
but the two later tasks still run and collect data. -/
theorem enrich_single_task_isolation_witness :
    envFound.get_restaurant_by_id ("r1") = Except.ok (some exRestaurant) ∧
    (((enrich_single_restaurant envFound {} ("r1")).2 =
      (if ({} : PipelineConfig).enable_concept_classification then [TaskCall.classify] else []) ++
      (if ({} : PipelineConfig).enable_population_analysis then [TaskCall.population] else []) ++
      (if ({} : PipelineConfig).enable_square_footage_scraping then [TaskCall.square_footage] else [])) ∧
    ((enrich_single_restaurant envFound {} ("r1")).1.errors =
      (classificationError envFound {} ("r1") exRestaurant).toList ++
      (populationError envFound {} ("r1") exRestaurant).toList ++
      (sqftError envFound {} ("r1") exRestaurant).toList) ∧
    ((enrich_single_restaurant envFound {} ("r1")).1.success = true ↔
      (enrich_single_restaurant envFound {} ("r1")).1.errors = [])) :=
  ⟨rfl, enrich_single_task_isolation envFound {} ("r1") exRestaurant rfl⟩

/-! ## C6 -/

/-- Rounding to three decimals keeps values inside the unit interval. -/
theorem round3_mem_unit {q : ℚ} (h0 : 0 ≤ q) (h1 : q ≤ 1) :
    0 ≤ round3 q ∧ round3 q ≤ 1 := by
  unfold round3
  rw [round_eq]
  have hge : (0 : ℤ) ≤ ⌊q * 1000 + 1 / 2⌋ := by
    apply Int.le_floor.mpr
    push_cast
    nlinarith
  have hcast : (⌊q * 1000 + 1 / 2⌋ : ℚ) ≤ q * 1000 + 1 / 2 := Int.floor_le _
  have hlt : ⌊q * 1000 + 1 / 2⌋ < 1001 := by
    have h2 : (⌊q * 1000 + 1 / 2⌋ : ℚ) < 1001 := by nlinarith
    exact_mod_cast h2
  have hle : ⌊q * 1000 + 1 / 2⌋ ≤ 1000 := by omega
  constructor
  · apply div_nonneg _ (by norm_num)
    exact_mod_cast hge
  · rw [div_le_one (by norm_num)]
    exact_mod_cast hle

/-- The average of a nonempty list of unit-interval rationals stays in the
unit interval. -/
theorem list_avg_mem_unit (l : List ℚ) (h : ∀ x ∈ l, 0 ≤ x ∧ x ≤ 1)
    (hne : l ≠ []) :
    0 ≤ l.sum / (l.length : ℚ) ∧ l.sum / (l.length : ℚ) ≤ 1 := by
  have hlen : 0 < (l.length : ℚ) := by
    have hp : 0 < l.length := List.length_pos.mpr hne
    exact_mod_cast hp
  constructor
  · exact div_nonneg (List.sum_nonneg (fun x hx => (h x hx).1)) hlen.le
  · rw [div_le_one hlen]
    have hs := List.sum_le_card_nsmul l 1 (fun x hx => (h x hx).2)
    simpa [nsmul_eq_mul] using hs

/-- The overall quality score is always in the unit interval. -/
theorem quality_score_mem_unit (rules : List ValidationRule)
    (results : List ValidationResult) (n : ℕ) :
    0 ≤ calculate_overall_quality_score rules results n ∧
    calculate_overall_quality_score rules results n ≤ 1 := by
  unfold calculate_overall_quality_score
  by_cases hn : n = 0
  · rw [if_pos hn]; norm_num
  · rw [if_neg hn]
    by_cases hmp : ((n : ℚ) * (rules.length : ℚ)) = 0
    · rw [if_pos hmp]; norm_num
    · rw [if_neg hmp]
      apply round3_mem_unit
      · exact le_max_left 0 _
      · apply max_le (by norm_num)
        have ht : (0 : ℚ) ≤ (errorCount results : ℚ) * 1 + (warningCount results : ℚ) * (1 / 2) := by
          positivity
        have hm : (0 : ℚ) ≤ (n : ℚ) * (rules.length : ℚ) := by positivity
        have hd : (0 : ℚ) ≤
            ((errorCount results : ℚ) * 1 + (warningCount results : ℚ) * (1 / 2)) /
              ((n : ℚ) * (rules.length : ℚ)) := div_nonneg ht hm
        linarith

/-- Each per-field completeness fraction is in the unit interval. -/
theorem completeness_element_mem_unit (df : DataFrame) (f : String)
    (hne : df.rows ≠ []) :
    0 ≤ 1 - ((df.rows.filter (fun r => isNullCell (r f))).length : ℚ) /
        (df.rows.length : ℚ) ∧
    1 - ((df.rows.filter (fun r => isNullCell (r f))).length : ℚ) /
        (df.rows.length : ℚ) ≤ 1 := by
  have hlen : 0 < (df.rows.length : ℚ) := by
    have hp : 0 < df.rows.length := List.length_pos.mpr hne
    exact_mod_cast hp
  have hcnt : ((df.rows.filter (fun r => isNullCell (r f))).length : ℚ) ≤
      (df.rows.length : ℚ) := by
    exact_mod_cast List.length_filter_le _ df.rows
  have hfrac0 : (0 : ℚ) ≤
      ((df.rows.filter (fun r => isNullCell (r f))).length : ℚ) / (df.rows.length : ℚ) := by
    positivity
  have hfrac1 : ((df.rows.filter (fun r => isNullCell (r f))).length : ℚ) /
      (df.rows.length : ℚ) ≤ 1 := by
    rw [div_le_one hlen]; exact hcnt
  constructor <;> linarith

/-- The completeness score is always in the unit interval. -/
theorem completeness_score_mem_unit (df : DataFrame) :
    0 ≤ calculate_completeness_score df ∧ calculate_completeness_score df ≤ 1 := by
  unfold calculate_completeness_score
  by_cases he : dfEmpty df = true
  · rw [if_pos he]; norm_num
  · rw [if_neg he]
    have hrows : df.rows ≠ [] := by
      intro hr
      apply he
      simp [dfEmpty, hr]
    set scores : List ℚ :=
      (key_fields.filter (fun f => df.columns.contains f)).map (fun f =>
        1 - ((df.rows.filter (fun r => isNullCell (r f))).length : ℚ) /
          (df.rows.length : ℚ)) with hscores
    by_cases hs : scores.isEmpty = true
    · rw [if_pos hs]; norm_num
    · rw [if_neg hs]
      have hnil : scores ≠ [] := fun hnil => hs (by simp [hnil])
      have helem : ∀ x ∈ scores, 0 ≤ x ∧ x ≤ 1 := by
        intro x hx
        rcases List.mem_map.mp (hscores ▸ hx) with ⟨f, _, hfx⟩
        exact hfx ▸ completeness_element_mem_unit df f hrows
      exact round3_mem_unit (list_avg_mem_unit scores helem hnil).1
        (list_avg_mem_unit scores helem hnil).2

/-- The accuracy score is always in the unit interval. -/
theorem accuracy_score_mem_unit (results : List ValidationResult) :
    0 ≤ calculate_accuracy_score results ∧ calculate_accuracy_score results ≤ 1 := by
  unfold calculate_accuracy_score
  by_cases he : results.isEmpty = true
  · rw [if_pos he]; norm_num
  · rw [if_neg he]
    have hpos : 0 < results.length := by
      cases results with
      | nil => exact absurd rfl he
      | cons a l => simp
    rw [if_pos hpos]
    apply round3_mem_unit
    · positivity
    · rw [div_le_one (by exact_mod_cast hpos)]
      exact_mod_cast List.length_filter_le _ results

/-- The consistency score is always in the unit interval. -/
theorem consistency_score_mem_unit (df : DataFrame) :
    0 ≤ calculate_consistency_score df ∧ calculate_consistency_score df ≤ 1 := by
  unfold calculate_consistency_score
  by_cases he : dfEmpty df = true
  · rw [if_pos he]; norm_num
  · rw [if_neg he]
    have hrows : df.rows ≠ [] := by
      intro hr
      apply he
      simp [dfEmpty, hr]
    have hlen : 0 < (df.rows.length : ℚ) := by
      have hp : 0 < df.rows.length := List.length_pos.mpr hrows
      exact_mod_cast hp
    have hmem : ∀ (p : Record → Bool),
        0 ≤ ((df.rows.filter p).length : ℚ) / (df.rows.length : ℚ) ∧
        ((df.rows.filter p).length : ℚ) / (df.rows.length : ℚ) ≤ 1 := by
      intro p
      constructor
      · positivity
      · rw [div_le_one hlen]
        exact_mod_cast List.length_filter_le p df.rows
    set scores : List ℚ :=
      (if df.columns.contains ("location_address") &&
          df.columns.contains ("location_city") then
        [((df.rows.filter (fun r =>
            strContains (lowerStr (pyStrGetD r ("location_address")))
              (lowerStr (pyStrGetD r ("location_city"))))).length : ℚ) /
          (df.rows.length : ℚ)]
      else []) ++
      (if df.columns.contains ("location_state") then
        [((df.rows.filter (fun r =>
            (pyStrOfValue ((r ("location_state")).getD Value.vNone)).length = 2)).length : ℚ) /
          (df.rows.length : ℚ)]
      else []) with hscores
    have helem : ∀ x ∈ scores, 0 ≤ x ∧ x ≤ 1 := by
      intro x hx
      rw [hscores] at hx
      rcases List.mem_append.mp hx with h1 | h1
      · by_cases hc : (df.columns.contains ("location_address") &&
            df.columns.contains ("location_city")) = true
        · rw [if_pos hc] at h1
          rcases List.mem_singleton.mp h1 with rfl
          exact hmem _
        · rw [if_neg hc] at h1
          exact absurd h1 (List.not_mem_nil x)
      · by_cases hc : df.columns.contains ("location_state") = true
        · rw [if_pos hc] at h1
          rcases List.mem_singleton.mp h1 with rfl
          exact hmem _
        · rw [if_neg hc] at h1
          exact absurd h1 (List.not_mem_nil x)
    by_cases hs : scores.isEmpty = true
    · rw [if_pos hs]; norm_num
    · rw [if_neg hs]
      have hnil : scores ≠ [] := by
        intro hnil; exact hs (by simp [hnil])
      exact round3_mem_unit (list_avg_mem_unit scores helem hnil).1
        (list_avg_mem_unit scores helem hnil).2

/-- C6: every quality report has its five scores inside the unit
interval, and an empty dataset (no rows) yields all five scores equal
to 1. -/
theorem quality_report_invariant (re_match : String → String → Bool)
    (rules : List ValidationRule) (df : DataFrame) :
    ((0 ≤ (analyze_dataset_quality re_match rules df).quality_score ∧
        (analyze_dataset_quality re_match rules df).quality_score ≤ 1) ∧
     (0 ≤ (analyze_dataset_quality re_match rules df).completeness_score ∧
        (analyze_dataset_quality re_match rules df).completeness_score ≤ 1) ∧
     (0 ≤ (analyze_dataset_quality re_match rules df).accuracy_score ∧
        (analyze_dataset_quality re_match rules df).accuracy_score ≤ 1) ∧
     (0 ≤ (analyze_dataset_quality re_match rules df).consistency_score ∧
        (analyze_dataset_quality re_match rules df).consistency_score ≤ 1) ∧
     (0 ≤ (analyze_dataset_quality re_match rules df).timeliness_score ∧
        (analyze_dataset_quality re_match rules df).timeliness_score ≤ 1)) ∧
    (df.rows = [] →
      (analyze_dataset_quality re_match rules df).quality_score = 1 ∧
      (analyze_dataset_quality re_match rules df).completeness_score = 1 ∧
      (analyze_dataset_quality re_match rules df).accuracy_score = 1 ∧
      (analyze_dataset_quality re_match rules df).consistency_score = 1 ∧
      (analyze_dataset_quality re_match rules df).timeliness_score = 1) := by
  constructor
  · exact ⟨quality_score_mem_unit rules (datasetResults re_match rules df) df.rows.length,
      completeness_score_mem_unit df,
      accuracy_score_mem_unit (datasetResults re_match rules df),
      consistency_score_mem_unit df,
      by norm_num [analyze_dataset_quality, calculate_timeliness_score]⟩
  · intro hrows
    refine ⟨?_, ?_, ?_, ?_, rfl⟩
    · show calculate_overall_quality_score rules (datasetResults re_match rules df)
        df.rows.length = 1
      rw [hrows]
      rfl
    · show calculate_completeness_score df = 1
      unfold calculate_completeness_score
      rw [if_pos (by simp [dfEmpty, hrows])]
    · show calculate_accuracy_score (datasetResults re_match rules df) = 1
      unfold calculate_accuracy_score datasetResults
      rw [hrows]
      rfl
    · show calculate_consistency_score df = 1
      unfold calculate_consistency_score
      rw [if_pos (by simp [dfEmpty, hrows])]

/-- A dataset with columns but no rows. -/
def emptyDf : DataFrame := { columns := ["id", "location_name"], rows := [] }

/-- Witness for C6: the empty dataset yields all five scores equal to 1
(scores-in-unit-interval also instantiated). -/
theorem quality_report_invariant_witness :
    emptyDf.rows = [] ∧
    ((analyze_dataset_quality noRe default_rules emptyDf).quality_score = 1 ∧
     (analyze_dataset_quality noRe default_rules emptyDf).completeness_score = 1 ∧
     (analyze_dataset_quality noRe default_rules emptyDf).accuracy_score = 1 ∧
     (analyze_dataset_quality noRe default_rules emptyDf).consistency_score = 1 ∧
     (analyze_dataset_quality noRe default_rules emptyDf).timeliness_score = 1) :=
  ⟨rfl, (quality_report_invariant noRe default_rules emptyDf).2 rfl⟩

/-! ## C8 -/

/-- The flagging condition of the claim for one numeric field: the field
is a present column with more than 10 non-null numeric values, and some
row has this id and a numeric value outside the IQR fences. -/
def flaggedForField (df : DataFrame) (f : String) (x : String) : Prop :=
  f ∈ df.columns ∧ 10 < (clean_numeric df f).length ∧
  ∃ r ∈ df.rows, rowIdStr r = x ∧
    ∃ v, pyFloat ((r f).getD Value.vNone) = some v ∧
      (v < outlier_lower df f ∨ outlier_upper df f < v)

/-- C8: an id is returned by outlier detection exactly when some field of
the fixed numeric set flags it — which requires strictly more than 10
non-null numeric values in that column (with 10 or fewer no record is
flagged for it) and a value outside the closed IQR fence interval; the
returned list is the deduplicated union over the fields. -/
theorem detect_outliers_characterization (df : DataFrame) (x : String)
    (hid : ("id") ∈ df.columns) :
    (x ∈ detect_outliers df ↔ ∃ f ∈ numeric_fields, flaggedForField df f x) ∧
    (detect_outliers df).Nodup := by
  refine ⟨?_, List.nodup_dedup _⟩
  unfold detect_outliers
  rw [List.mem_dedup, List.mem_flatMap]
  constructor
  · rintro ⟨f, hf, hx⟩
    refine ⟨f, hf, ?_⟩
    by_cases hcol : f ∈ df.columns
    · rw [if_pos hcol] at hx
      unfold outliers_for_field at hx
      by_cases hlen : 10 < (clean_numeric df f).length
      · rw [if_pos hlen, if_pos hid] at hx
        rcases List.mem_map.mp hx with ⟨r, hr, hxr⟩
        rcases List.mem_filter.mp hr with ⟨hrmem, hpred⟩
        refine ⟨hcol, hlen, r, hrmem, hxr, ?_⟩
        unfold outlierPred at hpred
        cases hv : pyFloat ((r f).getD Value.vNone) with
        | none => rw [hv] at hpred; exact absurd hpred (by simp)
        | some v =>
          rw [hv] at hpred
          simp only [Bool.or_eq_true, decide_eq_true_eq] at hpred
          exact ⟨v, rfl, hpred⟩
      · rw [if_neg hlen] at hx
        exact absurd hx (List.not_mem_nil x)
    · rw [if_neg hcol] at hx
      exact absurd hx (List.not_mem_nil x)
  · rintro ⟨f, hf, hcol, hlen, r, hrmem, hxr, v, hv, hout⟩
    refine ⟨f, hf, ?_⟩
    rw [if_pos hcol]
    unfold outliers_for_field
    rw [if_pos hlen, if_pos hid]
    refine List.mem_map.mpr ⟨r, List.mem_filter.mpr ⟨hrmem, ?_⟩, hxr⟩
    unfold outlierPred
    rw [hv]
    simpa only [Bool.or_eq_true, decide_eq_true_eq] using hout

/-- A concrete row of the outlier example: an id and one receipts value. -/
def exampleRow (i : ℕ) (v : ℚ) : Record := fun f =>
  if f = "id" then some (Value.vStr ("r" ++ toString i))
  else if f = "total_receipts" then some (Value.vNum v) else none

/-- The 11-value example dataset: ten receipts near 100 and one at 5000. -/
def exampleDf : DataFrame :=
  { columns := ["id", "total_receipts"],
    rows := (List.range 10).map (fun i => exampleRow i (95 + i)) ++
      [exampleRow 10 5000] }

/-- Witness for C8 at the example dataset and the extreme record id. -/
theorem detect_outliers_characterization_witness :
    ("id") ∈ exampleDf.columns ∧
    ((("r10") ∈ detect_outliers exampleDf ↔
      ∃ f ∈ numeric_fields, flaggedForField exampleDf f ("r10")) ∧
     (detect_outliers exampleDf).Nodup) :=
  ⟨by decide, detect_outliers_characterization exampleDf ("r10") (by decide)⟩

end TabcScrape
